import Mathlib

/-
  Verification development for the walking_neuro_evolution repository.

  Shallow embedding of the generation-evaluation core (src/dummy.py and
  src/simulation.py).  Python floats are modelled as exact rationals; the
  external physics engine (pymunk) is modelled as an oracle that supplies,
  per tick, the new physical readings (positions, angles, angular
  velocities) and which collision begin/separate events fired during the
  step.  All code that belongs to the repository itself (the collision
  handlers, the per-tick loops, the sensor/motor/lifecycle methods of the
  Dummy class, debris management and fitness reduction) is translated
  directly from the source.
-/

/-- Constants from src/dummy.py: MOTOR_RATE = 10 (max angular velocity, rad/s). -/
def MOTOR_RATE : ℚ := 10

/-- Constants from src/dummy.py: MOTOR_MAX_FORCE = 1000000. -/
def MOTOR_MAX_FORCE : ℚ := 1000000

/-- Constants from src/simulation.py: NUM_DEBRIS_PARTS = 15. -/
def NUM_DEBRIS_PARTS : Nat := 15

/-- Constants from src/simulation.py: DEBRIS_CLEANUP_Y = -100. -/
def DEBRIS_CLEANUP_Y : ℚ := -100

/-- Constants from src/simulation.py: LASER_SPEED = 150.0 pixels per second. -/
def LASER_SPEED : ℚ := 150

/-- Constants from src/simulation.py: LASER_START_X = -20. -/
def LASER_START_X : ℚ := -20

/-- Constants from src/simulation.py: SIM_DT = 1/60. -/
def SIM_DT : ℚ := 1 / 60

/-- Constants from src/simulation.py: DEFAULT_DUMMY_START_POS = (250, 150). -/
def DEFAULT_DUMMY_START_POS : ℚ × ℚ := (250, 150)

/-- Safety tick ceiling of the isolated path: max_frames = 2000 in
Simulation._simulate_dummy. -/
def maxFrames : Nat := 2000

/-- The exact rational value of the IEEE-754 double math.pi used by the
Python source (floats are rationals; this is 884279719003555 / 2^48). -/
def math_pi : ℚ := 884279719003555 / 281474976710656

/-- Python floored modulo on floats (a % m), used by the head-stability
metric: a % m = a - m * floor(a / m) for m > 0. -/
def pyMod (a m : ℚ) : ℚ := a - m * ((Rat.floor (a / m) : ℤ) : ℚ)

/-- One rate-controlled motor (pymunk.SimpleMotor): target rate and the
max-force cap assigned at construction. -/
structure Motor where
  rate : ℚ
  max_force : ℚ
deriving DecidableEq

/-- The state of one Dummy (src/dummy.py class Dummy).  Angles and angular
velocities of the physical parts are the readings the code pulls from the
pymunk bodies; is_hit / final_x / contact flags / motor_forces are the
fields the class itself maintains.  in_space records whether the parts are
still attached to the physics space (remove_from_space clears it). -/
structure Dummy where
  is_hit : Bool
  final_x : Option ℚ
  pos : ℚ × ℚ
  initial_pos : ℚ × ℚ
  body_angle : ℚ
  r_arm_angle : ℚ
  l_arm_angle : ℚ
  r_leg_angle : ℚ
  l_leg_angle : ℚ
  r_lower_leg_angle : ℚ
  l_lower_leg_angle : ℚ
  head_angle : ℚ
  body_angvel : ℚ
  r_arm_angvel : ℚ
  l_arm_angvel : ℚ
  r_leg_angvel : ℚ
  l_leg_angvel : ℚ
  r_lower_leg_angvel : ℚ
  l_lower_leg_angvel : ℚ
  motors : List Motor
  motor_forces : List ℚ
  r_foot_contact : Bool
  l_foot_contact : Bool
  r_hand_contact : Bool
  l_hand_contact : Bool
  in_space : Bool
deriving DecidableEq

/-- Dummy.__init__: freshly assembled dummy at the given position.  All
parts spawn unrotated and at rest; the six motors are created in source
order r_shoulder, l_shoulder, r_hip, l_hip, r_knee, l_knee, the knee
motors with max_force = MOTOR_MAX_FORCE * 0.8; motor_forces is initialised
to the four-element list [0.0, 0.0, 0.0, 0.0]; all contact flags start
False; is_hit starts False and final_x None. -/
def mkDummy (position : ℚ × ℚ) : Dummy where
  is_hit := false
  final_x := none
  pos := position
  initial_pos := position
  body_angle := 0
  r_arm_angle := 0
  l_arm_angle := 0
  r_leg_angle := 0
  l_leg_angle := 0
  r_lower_leg_angle := 0
  l_lower_leg_angle := 0
  head_angle := 0
  body_angvel := 0
  r_arm_angvel := 0
  l_arm_angvel := 0
  r_leg_angvel := 0
  l_leg_angvel := 0
  r_lower_leg_angvel := 0
  l_lower_leg_angvel := 0
  motors :=
    [ { rate := 0, max_force := MOTOR_MAX_FORCE },
      { rate := 0, max_force := MOTOR_MAX_FORCE },
      { rate := 0, max_force := MOTOR_MAX_FORCE },
      { rate := 0, max_force := MOTOR_MAX_FORCE },
      { rate := 0, max_force := MOTOR_MAX_FORCE * (8/10) },
      { rate := 0, max_force := MOTOR_MAX_FORCE * (8/10) } ]
  motor_forces := [0, 0, 0, 0]
  r_foot_contact := false
  l_foot_contact := false
  r_hand_contact := false
  l_hand_contact := false
  in_space := true

/-- Dummy.get_body_position: the current trunk position. -/
def get_body_position (d : Dummy) : ℚ × ℚ := d.pos

/-- Dummy.mark_as_hit: if not yet hit, set is_hit, record final_x from the
trunk position and return that position; otherwise return None and leave
the state untouched. -/
def mark_as_hit (d : Dummy) : Dummy × Option (ℚ × ℚ) :=
  if !d.is_hit then
    ({ d with is_hit := true, final_x := some d.pos.1 }, some d.pos)
  else
    (d, none)

/-- Dummy.remove_from_space: detaches every owned motor, joint, shape and
body from the space and clears the ownership lists (idempotent; removal of
already-absent elements is skipped).  Modelled by emptying the motor list
and clearing in_space; the physical readings freeze at their last values. -/
def remove_from_space (d : Dummy) : Dummy :=
  { d with motors := [], in_space := false }

/-- Dummy.set_motor_rates: no-op when is_hit or when the motor list is
empty; if the number of supplied rates differs from the motor count, print
a warning diagnostic (the Bool result) and mutate nothing; otherwise assign
motor.rate = rate_input * MOTOR_RATE to each motor in order.  The
`hasattr(motor, 'force')` branch of the source never executes because
pymunk constraints expose no attribute named force, so motor_forces is
never written here. -/
def set_motor_rates (d : Dummy) (rates : List ℚ) : Dummy × Bool :=
  if d.is_hit || d.motors.isEmpty then
    (d, false)
  else if rates.length ≠ d.motors.length then
    (d, true)
  else
    ({ d with motors := List.zipWith (fun m r => { m with rate := r * MOTOR_RATE }) d.motors rates },
     false)

/-- Clamp x to [-1, 1] the way the source writes it: max(-1.0, min(1.0, x)). -/
def clamp_unit (x : ℚ) : ℚ := max (-1) (min 1 x)

/-- Dummy.get_angular_velocities: all zeros when is_hit; otherwise the six
relative joint angular velocities, each normalised by MOTOR_RATE * 1.5 and
clamped to [-1, 1]. -/
def get_angular_velocities (d : Dummy) : List ℚ :=
  if d.is_hit then
    List.replicate 6 0
  else
    [ clamp_unit ((d.r_arm_angvel - d.body_angvel) / (MOTOR_RATE * (3/2))),
      clamp_unit ((d.l_arm_angvel - d.body_angvel) / (MOTOR_RATE * (3/2))),
      clamp_unit ((d.r_leg_angvel - d.body_angvel) / (MOTOR_RATE * (3/2))),
      clamp_unit ((d.l_leg_angvel - d.body_angvel) / (MOTOR_RATE * (3/2))),
      clamp_unit ((d.r_lower_leg_angvel - d.r_leg_angvel) / (MOTOR_RATE * (3/2))),
      clamp_unit ((d.l_lower_leg_angvel - d.l_leg_angvel) / (MOTOR_RATE * (3/2))) ]

/-- Dummy.get_sensor_data: the all-zero 29-vector when is_hit; otherwise
6 relative joint angles divided by pi, 7 absolute angles divided by 2 pi,
the 6 clamped angular velocities, the 6 motor-force fractions (the source
replaces motor_forces by [0.0] * 6 whenever its length is below 6), and the
4 contact flags as 0.0 / 1.0.  The source mutates self.motor_forces in
place when padding; the padded list is what every read observes, so the
pure model is observationally identical. -/
def get_sensor_data (d : Dummy) : List ℚ :=
  if d.is_hit then
    List.replicate 29 0
  else
    let av := get_angular_velocities d
    let mf := if d.motor_forces.length < 6 then List.replicate 6 0 else d.motor_forces
    [ (d.r_arm_angle - d.body_angle) / math_pi,
      (d.l_arm_angle - d.body_angle) / math_pi,
      (d.r_leg_angle - d.body_angle) / math_pi,
      (d.l_leg_angle - d.body_angle) / math_pi,
      (d.r_lower_leg_angle - d.r_leg_angle) / math_pi,
      (d.l_lower_leg_angle - d.l_leg_angle) / math_pi,
      d.body_angle / (2 * math_pi),
      d.r_arm_angle / (2 * math_pi),
      d.l_arm_angle / (2 * math_pi),
      d.r_leg_angle / (2 * math_pi),
      d.l_leg_angle / (2 * math_pi),
      d.r_lower_leg_angle / (2 * math_pi),
      d.l_lower_leg_angle / (2 * math_pi),
      av.getD 0 0, av.getD 1 0, av.getD 2 0, av.getD 3 0, av.getD 4 0, av.getD 5 0,
      mf.getD 0 0, mf.getD 1 0, mf.getD 2 0, mf.getD 3 0, mf.getD 4 0, mf.getD 5 0,
      (if d.r_foot_contact then 1 else 0),
      (if d.l_foot_contact then 1 else 0),
      (if d.r_hand_contact then 1 else 0),
      (if d.l_hand_contact then 1 else 0) ]

/-- Head-stability score of one tick, from the generation loops:
1.0 - min(1.0, abs(head.angle % (2 pi)) / pi). -/
def stability_score (d : Dummy) : ℚ :=
  1 - min 1 (|pyMod d.head_angle (2 * math_pi)| / math_pi)

/-- Tag for the body part a colliding shape belongs to (the source
dispatches on identity of the pymunk body inside the collision
callbacks). -/
inductive BodyPart where
  | body
  | head
  | r_arm
  | l_arm
  | r_leg
  | l_leg
  | r_lower_leg
  | l_lower_leg
deriving DecidableEq

/-- One debris particle (Simulation._create_explosion): a circular body
dropped at the explosion centre with a randomised velocity and spin. -/
structure Debris where
  pos : ℚ × ℚ
  vel : ℚ × ℚ
  angvel : ℚ
deriving DecidableEq

/-- Simulation._create_explosion: appends NUM_DEBRIS_PARTS particles, all
positioned at center_pos, with randomised outward velocity and spin (the
random draws are supplied by the oracle rand). -/
def createExplosion (rand : Nat → (ℚ × ℚ) × ℚ) (center : ℚ × ℚ) (db : List Debris) : List Debris :=
  db ++ (List.range NUM_DEBRIS_PARTS).map (fun k => { pos := center, vel := (rand k).1, angvel := (rand k).2 })

/-- Simulation._cleanup_debris: removes every debris particle whose
vertical position has fallen strictly below DEBRIS_CLEANUP_Y and keeps the
rest in order (the source walks the list backwards collecting indices and
then deletes them, which has exactly this effect). -/
def cleanup_debris (db : List Debris) : List Debris :=
  db.filter (fun p => !(decide (p.pos.2 < DEBRIS_CLEANUP_Y)))

/-- Simulation._laser_hit_dummy: mark the struck dummy as hit; if
mark_as_hit returned a position (first hit), spawn the explosion burst
there and remove the dummy from the space; a dummy that was already hit is
left untouched. -/
def laser_hit_dummy (rand : Nat → (ℚ × ℚ) × ℚ) (d : Dummy) (db : List Debris) : Dummy × List Debris :=
  match mark_as_hit d with
  | (d1, some c) => (remove_from_space d1, createExplosion rand c db)
  | (d1, none) => (d1, db)

/-- Simulation._ground_dummy_collision: head contact triggers the same
kill sequence as the laser; lower-leg and arm contacts set the matching
contact flag; any other part leaves the dummy unchanged. -/
def ground_dummy_collision (rand : Nat → (ℚ × ℚ) × ℚ) (d : Dummy) (p : BodyPart) (db : List Debris) : Dummy × List Debris :=
  match p with
  | BodyPart.head =>
      match mark_as_hit d with
      | (d1, some c) => (remove_from_space d1, createExplosion rand c db)
      | (d1, none) => (d1, db)
  | BodyPart.r_lower_leg => ({ d with r_foot_contact := true }, db)
  | BodyPart.l_lower_leg => ({ d with l_foot_contact := true }, db)
  | BodyPart.r_arm => ({ d with r_hand_contact := true }, db)
  | BodyPart.l_arm => ({ d with l_hand_contact := true }, db)
  | _ => (d, db)

/-- Simulation._ground_dummy_separate: clears the matching contact flag on
separation; other parts leave the dummy unchanged. -/
def ground_dummy_separate (d : Dummy) (p : BodyPart) : Dummy :=
  match p with
  | BodyPart.r_lower_leg => { d with r_foot_contact := false }
  | BodyPart.l_lower_leg => { d with l_foot_contact := false }
  | BodyPart.r_arm => { d with r_hand_contact := false }
  | BodyPart.l_arm => { d with l_hand_contact := false }
  | _ => d

/-- Chipmunk/pymunk collision filter: non-zero group, category bitmask and
collision bitmask. -/
structure ShapeFilter where
  group : Nat
  categories : Nat
  mask : Nat
deriving DecidableEq

/-- Default pymunk category/mask value: all 32 bits set. -/
def pymunkAllBits : Nat := 4294967295

/-- Chipmunk cpShapeFilterReject: two shapes do not collide when they
share a non-zero group, or when either category set misses the other
mask. -/
def shapeFilterReject (a b : ShapeFilter) : Bool :=
  (decide (a.group ≠ 0) && decide (a.group = b.group))
  || decide (Nat.land a.categories b.mask = 0)
  || decide (Nat.land b.categories a.mask = 0)

/-- A shape record carrying what Dummy._create_part assigns: the owning
dummy id, the part tag, the collision filter ShapeFilter(group=1) and the
collision type. -/
structure PartShape where
  owner : Nat
  part : BodyPart
  filter : ShapeFilter
  collision_type : Nat
deriving DecidableEq

/-- Dummy._create_part: every created shape receives
ShapeFilter(group=1) with the default (all-bits) categories and mask, and
the dummy collision type. -/
def create_part_shape (owner : Nat) (p : BodyPart) (ct : Nat) : PartShape :=
  { owner := owner
    part := p
    filter := { group := 1, categories := pymunkAllBits, mask := pymunkAllBits }
    collision_type := ct }

/-- The eight shapes Dummy.__init__ creates through _create_part, in
source order: trunk, head, right/left arm, right/left upper leg,
right/left lower leg. -/
def dummy_part_shapes (owner : Nat) (ct : Nat) : List PartShape :=
  [BodyPart.body, BodyPart.head, BodyPart.r_arm, BodyPart.l_arm,
   BodyPart.r_leg, BodyPart.l_leg, BodyPart.r_lower_leg, BodyPart.l_lower_leg].map
    (fun p => create_part_shape owner p ct)

/-- Physics-engine oracle output for one dummy and one space.step: the new
trunk position and the new angles and angular velocities of its parts.
Only these readings change during a step; the fields the Dummy class owns
(is_hit, final_x, motors, motor_forces, contact flags) are untouched by
the integrator itself. -/
structure PhysUpd where
  pos : ℚ × ℚ
  body_angle : ℚ
  r_arm_angle : ℚ
  l_arm_angle : ℚ
  r_leg_angle : ℚ
  l_leg_angle : ℚ
  r_lower_leg_angle : ℚ
  l_lower_leg_angle : ℚ
  head_angle : ℚ
  body_angvel : ℚ
  r_arm_angvel : ℚ
  l_arm_angvel : ℚ
  r_leg_angvel : ℚ
  l_leg_angvel : ℚ
  r_lower_leg_angvel : ℚ
  l_lower_leg_angvel : ℚ
deriving DecidableEq

/-- Apply one physics-step reading to a dummy. -/
def applyPhys (u : PhysUpd) (d : Dummy) : Dummy :=
  { d with
    pos := u.pos
    body_angle := u.body_angle
    r_arm_angle := u.r_arm_angle
    l_arm_angle := u.l_arm_angle
    r_leg_angle := u.r_leg_angle
    l_leg_angle := u.l_leg_angle
    r_lower_leg_angle := u.r_lower_leg_angle
    l_lower_leg_angle := u.l_lower_leg_angle
    head_angle := u.head_angle
    body_angvel := u.body_angvel
    r_arm_angvel := u.r_arm_angvel
    l_arm_angvel := u.l_arm_angvel
    r_leg_angvel := u.r_leg_angvel
    l_leg_angvel := u.l_leg_angvel
    r_lower_leg_angvel := u.r_lower_leg_angvel
    l_lower_leg_angvel := u.l_lower_leg_angvel }

/-- Environment/oracle of the shared visual path
(Simulation._run_visual_simulation): whether the visualiser window is
still open at the top of each tick, the per-genome activatable networks
(which may raise, modelled as Except.error), the physics readings of each
space.step, which agents the step's collision handlers killed, the
per-genome vertical start jitter and the random draws for debris
velocities. -/
structure VisEnv where
  vizRunning : Nat → Bool
  net : Nat → List ℚ → Except Unit (List ℚ)
  upd : Nat → Nat → PhysUpd
  stepKills : Nat → Nat → Bool
  jitter : Nat → ℚ
  rand : Nat → Nat → Nat → (ℚ × ℚ) × ℚ

/-- Per-genome record of one generation of the visual path: the genome id,
its dummy, and the accumulated metrics survival_frames, movement_distance
and head_stability. -/
structure GenRec where
  id : Nat
  dummy : Dummy
  frames : Nat
  distance : ℚ
  stability : ℚ
deriving DecidableEq

/-- One result row of either evaluation path: (genome_id, fitness, frames,
distance, stability), with fitness = float(frames). -/
structure GenResult where
  id : Nat
  fitness : ℚ
  frames : Nat
  distance : ℚ
  stability : ℚ
deriving DecidableEq

/-- The per-agent body of one tick of the visual loop: a dummy that is
already hit is skipped; otherwise its frame counter is incremented, its
movement and stability metrics updated, and its network activated on the
current sensors.  A successful activation feeds set_motor_rates; an
exception is caught locally: the dummy is marked as hit, an explosion is
spawned at the returned position (if any) and the dummy is removed from
the space.  The Nat output is this agent's contribution to
current_active, which the source increments before the try block. -/
def sweepAgent (env : VisEnv) (t : Nat) (r : GenRec) (db : List Debris) : GenRec × List Debris × Nat :=
  if r.dummy.is_hit then
    (r, db, 0)
  else
    let frames1 := r.frames + 1
    let cpos := get_body_position r.dummy
    let dist1 := max r.distance |cpos.1 - r.dummy.initial_pos.1|
    let stab1 := r.stability + stability_score r.dummy
    match env.net r.id (get_sensor_data r.dummy) with
    | Except.ok outs =>
        ({ r with dummy := (set_motor_rates r.dummy outs).1,
                  frames := frames1, distance := dist1, stability := stab1 }, db, 1)
    | Except.error _ =>
        match mark_as_hit r.dummy with
        | (d1, some c) =>
            ({ r with dummy := remove_from_space d1,
                      frames := frames1, distance := dist1, stability := stab1 },
             createExplosion (env.rand t r.id) c db, 1)
        | (d1, none) =>
            ({ r with dummy := remove_from_space d1,
                      frames := frames1, distance := dist1, stability := stab1 }, db, 1)

/-- The agent sweep of one tick of the visual loop, over the genome list
in order, threading the debris list and summing current_active. -/
def sweep (env : VisEnv) (t : Nat) : List GenRec → List Debris → List GenRec × List Debris × Nat
  | [], db => ([], db, 0)
  | r :: rs, db =>
      let a := sweepAgent env t r db
      let s := sweep env t rs a.2.1
      (a.1 :: s.1, s.2.1, a.2.2 + s.2.2)

/-- The space.step effect on one agent of the visual path: bodies still in
the space receive the oracle's physics readings (removed bodies freeze);
if the laser (or ground-head) collision handler fired for this agent
during the step, the kill sequence of Simulation._laser_hit_dummy runs. -/
def stepAgent (env : VisEnv) (t : Nat) (r : GenRec) (db : List Debris) : GenRec × List Debris :=
  let d := if r.dummy.in_space then applyPhys (env.upd t r.id) r.dummy else r.dummy
  if env.stepKills t r.id && d.in_space then
    let k := laser_hit_dummy (env.rand t r.id) d db
    ({ r with dummy := k.1 }, k.2)
  else
    ({ r with dummy := d }, db)

/-- The space.step phase of one tick of the visual path over all agents,
threading the debris list. -/
def stepPhase (env : VisEnv) (t : Nat) : List GenRec → List Debris → List GenRec × List Debris
  | [], db => ([], db)
  | r :: rs, db =>
      let a := stepAgent env t r db
      let s := stepPhase env t rs a.2
      (a.1 :: s.1, s.2)

/-- The while loop of Simulation._run_visual_simulation: while
active_genomes > 0, first poll viz.running and break if the display was
closed, then sweep all agents (recomputing current_active), step the
shared space once, clean up debris, and draw.  The fuel argument only
bounds the number of iterations held in the model; every claim is stated
for arbitrary fuel. -/
def runVisLoop (env : VisEnv) : Nat → Nat → List GenRec → List Debris → Nat → List GenRec × List Debris
  | 0, _, recs, db, _ => (recs, db)
  | fuel + 1, t, recs, db, act =>
      if act > 0 then
        if env.vizRunning t then
          let s := sweep env t recs db
          let p := stepPhase env t s.1 s.2.1
          runVisLoop env fuel (t + 1) p.1 (cleanup_debris p.2) s.2.2
        else (recs, db)
      else (recs, db)

/-- Initial generation records of the visual path: one dummy per genome at
DEFAULT_DUMMY_START_POS with the random vertical jitter, all metrics
zero (genome.fitness is initialised to 0 at the same spot). -/
def initRecs (env : VisEnv) (genomes : List Nat) : List GenRec :=
  genomes.map (fun g =>
    { id := g
      dummy := mkDummy (DEFAULT_DUMMY_START_POS.1, DEFAULT_DUMMY_START_POS.2 + env.jitter g)
      frames := 0
      distance := 0
      stability := 0 })

/-- Simulation._run_visual_simulation: build dummies and networks, run the
shared tick loop starting with active_genomes = len(genomes), and reduce
every genome's record to a result row with fitness = float(frames).  The
loop always returns normally, whether it ended because every agent was
terminal or because the display was closed. -/
def run_visual_simulation (env : VisEnv) (genomes : List Nat) (fuel : Nat) : List GenResult :=
  let recs := initRecs env genomes
  let out := runVisLoop env fuel 0 recs [] genomes.length
  out.1.map (fun r =>
    { id := r.id, fitness := (r.frames : ℚ), frames := r.frames,
      distance := r.distance, stability := r.stability })

/-- Environment/oracle of one isolated evaluation
(Simulation._simulate_dummy): the physics readings of each local
space.step, and the collision begin events the local handlers receive
during each step (laser contact, and the list of parts touching the
ground). -/
structure IsoEnv where
  upd : Nat → PhysUpd
  laserContact : Nat → Bool
  groundContacts : Nat → List BodyPart
  jitter : ℚ

/-- The local laser handler of the isolated path registers mark_as_hit for
any laser-dummy begin event, and the local ground handler
(_local_head_ground_collision) calls mark_as_hit only when the colliding
body is the head; contacts of any other part do nothing there — in
particular no handler of the isolated path touches the contact flags. -/
def localGroundHandler (d : Dummy) (p : BodyPart) : Dummy :=
  if p = BodyPart.head then (mark_as_hit d).1 else d

/-- One local space.step of the isolated path: the integrator's readings,
then the collision handlers that fired during the step. -/
def isoStep (env : IsoEnv) (k : Nat) (d : Dummy) : Dummy :=
  let d1 := applyPhys (env.upd k) d
  let d2 := if env.laserContact k then (mark_as_hit d1).1 else d1
  (env.groundContacts k).foldl localGroundHandler d2

/-- Laser x position after n local steps: the kinematic laser starts at
LASER_START_X and moves at LASER_SPEED * SIM_DT per step. -/
def laserX (n : Nat) : ℚ := LASER_START_X + LASER_SPEED * SIM_DT * (n : ℚ)

/-- The while loop of Simulation._simulate_dummy: while the dummy is not
hit and survival_frames < max_frames, activate the network on the current
sensors (an exception here is NOT caught and propagates out of the whole
evaluation), apply the motor rates, step the local space, increment
survival_frames, update the metrics, and break early when the laser has
passed the dummy position by more than 100.  fuel is a structural bound;
simulate_dummy supplies maxFrames + 1, which the guard keeps from ever
being exhausted. -/
def simDummyLoop (env : IsoEnv) (net : List ℚ → Except Unit (List ℚ)) :
    Nat → Dummy → Nat → ℚ → ℚ → Except Unit (Dummy × Nat × ℚ × ℚ)
  | 0, d, frames, dist, stab => Except.ok (d, frames, dist, stab)
  | fuel + 1, d, frames, dist, stab =>
      if !d.is_hit && frames < maxFrames then
        match net (get_sensor_data d) with
        | Except.error e => Except.error e
        | Except.ok outs =>
            let d1 := (set_motor_rates d outs).1
            let d2 := isoStep env frames d1
            let frames1 := frames + 1
            let dist1 := max dist |(get_body_position d2).1 - d2.initial_pos.1|
            let stab1 := stab + stability_score d2
            if laserX frames1 > (get_body_position d2).1 + 100 then
              Except.ok (d2, frames1, dist1, stab1)
            else
              simDummyLoop env net fuel d2 frames1 dist1 stab1
      else
        Except.ok (d, frames, dist, stab)

/-- One result of the isolated path, fitness = float(survival_frames). -/
structure IsoResult where
  dummy : Dummy
  fitness : ℚ
  frames : Nat
  distance : ℚ
  stability : ℚ
deriving DecidableEq

/-- The dummy Simulation._simulate_dummy constructs in its private space. -/
def isoInitialDummy (env : IsoEnv) : Dummy :=
  mkDummy (DEFAULT_DUMMY_START_POS.1, DEFAULT_DUMMY_START_POS.2 + env.jitter)

/-- Simulation._simulate_dummy: run the isolated per-genome loop and
reduce to fitness = float(survival_frames); a network exception escapes
the evaluation as Except.error. -/
def simulate_dummy (env : IsoEnv) (net : List ℚ → Except Unit (List ℚ)) : Except Unit IsoResult :=
  match simDummyLoop env net (maxFrames + 1) (isoInitialDummy env) 0 0 0 with
  | Except.error e => Except.error e
  | Except.ok (d, frames, dist, stab) =>
      Except.ok { dummy := d, fitness := (frames : ℚ), frames := frames,
                  distance := dist, stability := stab }

/-- All four contact-flag sensors of a dummy are clear. -/
def contact_flags_clear (d : Dummy) : Prop :=
  d.r_foot_contact = false ∧ d.l_foot_contact = false
  ∧ d.r_hand_contact = false ∧ d.l_hand_contact = false

instance (d : Dummy) : Decidable (contact_flags_clear d) := by
  unfold contact_flags_clear; infer_instance

/-- Exit invariant of the raw isolated loop: when it returns normally the
frame count is within the safety ceiling and the loop ended because the
dummy is terminal, or the ceiling was reached, or the laser has passed the
dummy's x position by more than 100. -/
def isoExitCond (x : Except Unit (Dummy × Nat × ℚ × ℚ)) : Prop :=
  match x with
  | Except.error _ => True
  | Except.ok y =>
      y.2.1 ≤ maxFrames
      ∧ (y.1.is_hit = true ∨ y.2.1 = maxFrames ∨ laserX y.2.1 > y.1.pos.1 + 100)

/-- Exit invariant of simulate_dummy, over the packaged result. -/
def isoExitOk (x : Except Unit IsoResult) : Prop :=
  match x with
  | Except.error _ => True
  | Except.ok r =>
      r.frames ≤ maxFrames
      ∧ (r.dummy.is_hit = true ∨ r.frames = maxFrames ∨ laserX r.frames > r.dummy.pos.1 + 100)

/-- Contact flags of the final dummy of the raw isolated loop are clear
(trivially met when the evaluation propagated an exception). -/
def isoFlagsOk (x : Except Unit (Dummy × Nat × ℚ × ℚ)) : Prop :=
  match x with
  | Except.error _ => True
  | Except.ok y => contact_flags_clear y.1

/-- Summary projection used to exhibit concrete isolated runs: is_hit of
the final dummy and the frame count, or none on a propagated exception. -/
def isoSummary (x : Except Unit IsoResult) : Option (Bool × Nat) :=
  match x with
  | Except.error _ => none
  | Except.ok r => some (r.dummy.is_hit, r.frames)

/-- Physics reading that parks the trunk at p with every angle and
angular velocity zero. -/
def physUpdConst (p : ℚ × ℚ) : PhysUpd where
  pos := p
  body_angle := 0
  r_arm_angle := 0
  l_arm_angle := 0
  r_leg_angle := 0
  l_leg_angle := 0
  r_lower_leg_angle := 0
  l_lower_leg_angle := 0
  head_angle := 0
  body_angvel := 0
  r_arm_angvel := 0
  l_arm_angvel := 0
  r_leg_angvel := 0
  l_leg_angvel := 0
  r_lower_leg_angvel := 0
  l_lower_leg_angvel := 0

/-- Network that always answers six zero motor rates. -/
def netZeros : List ℚ → Except Unit (List ℚ) := fun _ => Except.ok (List.replicate 6 0)

/-- Visual-path scenario: display stays open, networks answer zeros, and
the physics step of the very first tick kills the only agent (the laser
strike fires during tick 0). -/
def envFirstTickKill : VisEnv where
  vizRunning := fun _ => true
  net := fun _ => netZeros
  upd := fun _ _ => physUpdConst DEFAULT_DUMMY_START_POS
  stepKills := fun t _ => decide (t = 0)
  jitter := fun _ => 0
  rand := fun _ _ _ => ((0, 0), 0)

/-- Visual-path scenario: nobody is ever killed, networks answer zeros,
and the display is closed after the first tick (viz.running polls true at
tick 0 and false from tick 1 on). -/
def envEarlyClose : VisEnv where
  vizRunning := fun t => decide (t = 0)
  net := fun _ => netZeros
  upd := fun _ _ => physUpdConst DEFAULT_DUMMY_START_POS
  stepKills := fun _ _ => false
  jitter := fun _ => 0
  rand := fun _ _ _ => ((0, 0), 0)

/-- Visual-path scenario whose only network raises on every activation. -/
def envNetRaises : VisEnv where
  vizRunning := fun _ => true
  net := fun _ _ => Except.error ()
  upd := fun _ _ => physUpdConst DEFAULT_DUMMY_START_POS
  stepKills := fun _ _ => false
  jitter := fun _ => 0
  rand := fun _ _ _ => ((0, 0), 0)

/-- Isolated-path scenario: the physics oracle parks the dummy far to the
left at x = -200 while the laser sweeps right, no collision event ever
fires, so after one step the laser has already passed the dummy by more
than 100 and the early break exits the loop. -/
def envLaserPasses : IsoEnv where
  upd := fun _ => physUpdConst (-200, 150)
  laserContact := fun _ => false
  groundContacts := fun _ => []
  jitter := 0

/-- Isolated-path scenario with an inert physics oracle, used to exhibit
exception propagation. -/
def envIsoInert : IsoEnv where
  upd := fun _ => physUpdConst DEFAULT_DUMMY_START_POS
  laserContact := fun _ => false
  groundContacts := fun _ => []
  jitter := 0

/-- Fitness reduction invariant of one isolated result: fitness is the
cast frame count (trivially met when the evaluation propagated an
exception). -/
def fitnessFramesOk (x : Except Unit IsoResult) : Prop :=
  match x with
  | Except.error _ => True
  | Except.ok r => r.fitness = (r.frames : ℚ)

/-- Contact flags of the final dummy of a packaged isolated result are
clear (trivially met when the evaluation propagated an exception). -/
def isoResFlagsOk (x : Except Unit IsoResult) : Prop :=
  match x with
  | Except.error _ => True
  | Except.ok r => contact_flags_clear r.dummy

/-- A fresh generation record for genome 0, as the visual path builds it
with zero jitter. -/
def recNetRaises : GenRec where
  id := 0
  dummy := mkDummy DEFAULT_DUMMY_START_POS
  frames := 0
  distance := 0
  stability := 0

theorem clamp_unit_bounds (x : ℚ) : -1 ≤ clamp_unit x ∧ clamp_unit x ≤ 1 := by
  constructor
  · exact le_max_left _ _
  · exact max_le (by norm_num) (min_le_left _ _)

theorem list_map_const {α β : Type} (l : List α) (b : β) :
    l.map (fun _ => b) = List.replicate l.length b := by
  induction l with
  | nil => rfl
  | cons a l ih => simp [List.replicate, ih]

theorem zipWith_rate_map (ms : List Motor) (rs : List ℚ) (h : ms.length = rs.length) :
    (List.zipWith (fun m r => { m with rate := r * MOTOR_RATE }) ms rs).map (fun m => m.rate)
      = rs.map (fun x => x * MOTOR_RATE) := by
  induction ms generalizing rs with
  | nil => cases rs with
    | nil => rfl
    | cons r rs => simp at h
  | cons m ms ih =>
      cases rs with
      | nil => simp at h
      | cons r rs =>
          simp only [List.length_cons, Nat.succ.injEq] at h
          simp [ih rs h]

theorem zipWith_maxforce_map (ms : List Motor) (rs : List ℚ) (h : ms.length = rs.length) :
    (List.zipWith (fun m r => { m with rate := r * MOTOR_RATE }) ms rs).map (fun m => m.max_force)
      = ms.map (fun m => m.max_force) := by
  induction ms generalizing rs with
  | nil => rfl
  | cons m ms ih =>
      cases rs with
      | nil => simp at h
      | cons r rs =>
          simp only [List.length_cons, Nat.succ.injEq] at h
          simp [ih rs h]

theorem isEmpty_false_of_length {α : Type} (l : List α) (n : Nat) (h : l.length = n + 1) :
    l.isEmpty = false := by
  cases l with
  | nil => simp at h
  | cons a l => rfl

theorem sweepAgent_id (env : VisEnv) (t : Nat) (r : GenRec) (db : List Debris) :
    (sweepAgent env t r db).1.id = r.id := by
  unfold sweepAgent
  by_cases h : r.dummy.is_hit
  · simp [h]
  · simp only [h]
    cases env.net r.id (get_sensor_data r.dummy) with
    | error e =>
        rcases hm : mark_as_hit r.dummy with ⟨d1, c⟩
        cases c <;> simp [hm]
    | ok outs => simp

theorem sweepAgent_frames (env : VisEnv) (t : Nat) (r : GenRec) (db : List Debris) :
    (sweepAgent env t r db).1.frames = r.frames + (if r.dummy.is_hit then 0 else 1) := by
  unfold sweepAgent
  by_cases h : r.dummy.is_hit
  · simp [h]
  · simp only [h]
    cases env.net r.id (get_sensor_data r.dummy) with
    | error e =>
        rcases hm : mark_as_hit r.dummy with ⟨d1, c⟩
        cases c <;> simp [hm]
    | ok outs => simp

theorem sweepAgent_fst_indep (env : VisEnv) (t : Nat) (r : GenRec) (db db' : List Debris) :
    (sweepAgent env t r db).1 = (sweepAgent env t r db').1 := by
  unfold sweepAgent
  by_cases h : r.dummy.is_hit
  · simp [h]
  · simp only [h]
    cases env.net r.id (get_sensor_data r.dummy) with
    | error e =>
        rcases hm : mark_as_hit r.dummy with ⟨d1, c⟩
        cases c <;> simp [hm]
    | ok outs => simp

theorem stepAgent_id (env : VisEnv) (t : Nat) (r : GenRec) (db : List Debris) :
    (stepAgent env t r db).1.id = r.id := by
  unfold stepAgent laser_hit_dummy
  by_cases h : env.stepKills t r.id && (if r.dummy.in_space then applyPhys (env.upd t r.id) r.dummy else r.dummy).in_space
  · rcases hm : mark_as_hit (if r.dummy.in_space then applyPhys (env.upd t r.id) r.dummy else r.dummy) with ⟨d1, c⟩
    cases c <;> simp [h, hm]
  · simp [h]

theorem stepAgent_frames (env : VisEnv) (t : Nat) (r : GenRec) (db : List Debris) :
    (stepAgent env t r db).1.frames = r.frames := by
  unfold stepAgent laser_hit_dummy
  by_cases h : env.stepKills t r.id && (if r.dummy.in_space then applyPhys (env.upd t r.id) r.dummy else r.dummy).in_space
  · rcases hm : mark_as_hit (if r.dummy.in_space then applyPhys (env.upd t r.id) r.dummy else r.dummy) with ⟨d1, c⟩
    cases c <;> simp [h, hm]
  · simp [h]

theorem sweep_ids (env : VisEnv) (t : Nat) (recs : List GenRec) (db : List Debris) :
    (sweep env t recs db).1.map (fun r => r.id) = recs.map (fun r => r.id) := by
  induction recs generalizing db with
  | nil => rfl
  | cons r rs ih => simp [sweep, sweepAgent_id, ih]

theorem stepPhase_ids (env : VisEnv) (t : Nat) (recs : List GenRec) (db : List Debris) :
    (stepPhase env t recs db).1.map (fun r => r.id) = recs.map (fun r => r.id) := by
  induction recs generalizing db with
  | nil => rfl
  | cons r rs ih => simp [stepPhase, stepAgent_id, ih]

theorem runVisLoop_ids (env : VisEnv) (fuel : Nat) :
    ∀ (t : Nat) (recs : List GenRec) (db : List Debris) (act : Nat),
      (runVisLoop env fuel t recs db act).1.map (fun r => r.id) = recs.map (fun r => r.id) := by
  induction fuel with
  | zero => intro t recs db act; rfl
  | succ fuel ih =>
      intro t recs db act
      unfold runVisLoop
      by_cases ha : act > 0
      · by_cases hv : env.vizRunning t
        · simp only [ha, hv, if_true]
          rw [ih, stepPhase_ids, sweep_ids]
        · simp [ha, hv]
      · simp [ha]

theorem run_visual_ids (env : VisEnv) (genomes : List Nat) (fuel : Nat) :
    (run_visual_simulation env genomes fuel).map (fun g => g.id) = genomes := by
  unfold run_visual_simulation
  rw [List.map_map]
  have h : ((fun g => g.id) ∘ fun (r : GenRec) =>
      ({ id := r.id, fitness := (r.frames : ℚ), frames := r.frames,
         distance := r.distance, stability := r.stability } : GenResult)) = fun r => r.id := rfl
  rw [h, runVisLoop_ids]
  unfold initRecs
  rw [List.map_map]
  show List.map (fun g => g) genomes = genomes
  induction genomes with
  | nil => rfl
  | cons a l ihg => simp only [List.map_cons, ihg]

theorem run_visual_fitness (env : VisEnv) (genomes : List Nat) (fuel : Nat) :
    ∀ g ∈ run_visual_simulation env genomes fuel, g.fitness = (g.frames : ℚ) := by
  intro g hg
  unfold run_visual_simulation at hg
  simp only [List.mem_map] at hg
  obtain ⟨r, _, rfl⟩ := hg
  rfl

theorem simDummyLoop_exit (env : IsoEnv) (net : List ℚ → Except Unit (List ℚ)) :
    ∀ (fuel : Nat) (d : Dummy) (frames : Nat) (dist stab : ℚ),
      frames ≤ maxFrames → maxFrames < frames + fuel →
      isoExitCond (simDummyLoop env net fuel d frames dist stab) := by
  intro fuel
  induction fuel with
  | zero => intro d frames dist stab h1 h2; omega
  | succ fuel ih =>
      intro d frames dist stab h1 h2
      unfold simDummyLoop
      by_cases hg : (!d.is_hit && decide (frames < maxFrames)) = true
      · simp only [hg, if_true]
        cases net (get_sensor_data d) with
        | error e => trivial
        | ok outs =>
            simp only []
            have hlt : frames < maxFrames := by
              simp only [Bool.and_eq_true, decide_eq_true_eq] at hg
              exact hg.2
            by_cases hb : laserX (frames + 1) >
                (get_body_position (isoStep env frames (set_motor_rates d outs).1)).1 + 100
            · simp only [hb, if_true]
              exact ⟨show frames + 1 ≤ maxFrames by omega, Or.inr (Or.inr hb)⟩
            · simp only [hb, if_false]
              exact ih _ (frames + 1) _ _ (by omega) (by omega)
      · simp only [hg, if_false]
        refine ⟨show frames ≤ maxFrames from h1, ?_⟩
        simp only [Bool.and_eq_true, Bool.not_eq_true', decide_eq_true_eq, not_and] at hg
        by_cases hh : d.is_hit
        · exact Or.inl hh
        · have hge := hg (Bool.not_eq_true _ ▸ hh)
          exact Or.inr (Or.inl (show frames = maxFrames by omega))

theorem mark_as_hit_flags (d : Dummy) :
    (mark_as_hit d).1.r_foot_contact = d.r_foot_contact
    ∧ (mark_as_hit d).1.l_foot_contact = d.l_foot_contact
    ∧ (mark_as_hit d).1.r_hand_contact = d.r_hand_contact
    ∧ (mark_as_hit d).1.l_hand_contact = d.l_hand_contact := by
  unfold mark_as_hit
  by_cases h : d.is_hit <;> simp [h]

theorem localGroundHandler_flags (d : Dummy) (p : BodyPart) :
    contact_flags_clear d → contact_flags_clear (localGroundHandler d p) := by
  intro hd
  unfold localGroundHandler
  by_cases hp : p = BodyPart.head
  · simp only [hp, if_true]
    have h := mark_as_hit_flags d
    exact ⟨h.1.trans hd.1, h.2.1.trans hd.2.1, h.2.2.1.trans hd.2.2.1, h.2.2.2.trans hd.2.2.2⟩
  · simpa [hp] using hd

theorem foldl_localGroundHandler_flags (ps : List BodyPart) (d : Dummy) :
    contact_flags_clear d → contact_flags_clear (ps.foldl localGroundHandler d) := by
  induction ps generalizing d with
  | nil => intro h; exact h
  | cons p ps ih => intro h; exact ih _ (localGroundHandler_flags d p h)

theorem applyPhys_flags (u : PhysUpd) (d : Dummy) :
    contact_flags_clear d → contact_flags_clear (applyPhys u d) := by
  intro h; exact h

theorem isoStep_flags (env : IsoEnv) (k : Nat) (d : Dummy) :
    contact_flags_clear d → contact_flags_clear (isoStep env k d) := by
  intro h
  unfold isoStep
  apply foldl_localGroundHandler_flags
  by_cases hl : env.laserContact k
  · simp only [hl, if_true]
    have hm := mark_as_hit_flags (applyPhys (env.upd k) d)
    have ha := applyPhys_flags (env.upd k) d h
    exact ⟨hm.1.trans ha.1, hm.2.1.trans ha.2.1, hm.2.2.1.trans ha.2.2.1, hm.2.2.2.trans ha.2.2.2⟩
  · simpa [hl] using applyPhys_flags (env.upd k) d h

theorem set_motor_rates_flags (d : Dummy) (rates : List ℚ) :
    contact_flags_clear d → contact_flags_clear (set_motor_rates d rates).1 := by
  intro h
  unfold set_motor_rates
  by_cases h1 : (d.is_hit || d.motors.isEmpty) = true
  · simpa [h1] using h
  · by_cases h2 : rates.length ≠ d.motors.length
    · simpa [h1, h2] using h
    · simpa [h1, h2] using h

theorem simDummyLoop_flags (env : IsoEnv) (net : List ℚ → Except Unit (List ℚ)) :
    ∀ (fuel : Nat) (d : Dummy) (frames : Nat) (dist stab : ℚ),
      contact_flags_clear d →
      isoFlagsOk (simDummyLoop env net fuel d frames dist stab) := by
  intro fuel
  induction fuel with
  | zero => intro d frames dist stab h; exact h
  | succ fuel ih =>
      intro d frames dist stab h
      unfold simDummyLoop
      by_cases hg : (!d.is_hit && decide (frames < maxFrames)) = true
      · simp only [hg, if_true]
        cases net (get_sensor_data d) with
        | error e => trivial
        | ok outs =>
            simp only []
            have hstep : contact_flags_clear (isoStep env frames (set_motor_rates d outs).1) :=
              isoStep_flags env frames _ (set_motor_rates_flags d outs h)
            by_cases hb : laserX (frames + 1) >
                (get_body_position (isoStep env frames (set_motor_rates d outs).1)).1 + 100
            · simpa [hb] using hstep
            · simp only [hb, if_false]
              exact ih _ (frames + 1) _ _ hstep
      · simpa [hg] using h

theorem getD_mem_of_lt (l : List ℚ) (n : Nat) (h : n < l.length) : l.getD n 0 ∈ l := by
  induction l generalizing n with
  | nil => simp at h
  | cons a t ih =>
      cases n with
      | zero => simp [List.getD]
      | succ n =>
          have hn : n < t.length := by simpa using h
          simp only [List.getD_cons_succ]
          exact List.mem_cons_of_mem a (ih n hn)

theorem drop_append_length {α : Type} (l m : List α) : (l ++ m).drop l.length = m := by
  induction l with
  | nil => rfl
  | cons a t ih => simp [ih]

theorem get_angular_velocities_not_hit (d : Dummy) (h : d.is_hit = false) :
    get_angular_velocities d =
      [ clamp_unit ((d.r_arm_angvel - d.body_angvel) / (MOTOR_RATE * (3/2))),
        clamp_unit ((d.l_arm_angvel - d.body_angvel) / (MOTOR_RATE * (3/2))),
        clamp_unit ((d.r_leg_angvel - d.body_angvel) / (MOTOR_RATE * (3/2))),
        clamp_unit ((d.l_leg_angvel - d.body_angvel) / (MOTOR_RATE * (3/2))),
        clamp_unit ((d.r_lower_leg_angvel - d.r_leg_angvel) / (MOTOR_RATE * (3/2))),
        clamp_unit ((d.l_lower_leg_angvel - d.l_leg_angvel) / (MOTOR_RATE * (3/2))) ] := by
  unfold get_angular_velocities
  rw [h]
  rfl

theorem get_sensor_data_not_hit (d : Dummy) (h : d.is_hit = false) :
    get_sensor_data d =
      [ (d.r_arm_angle - d.body_angle) / math_pi,
        (d.l_arm_angle - d.body_angle) / math_pi,
        (d.r_leg_angle - d.body_angle) / math_pi,
        (d.l_leg_angle - d.body_angle) / math_pi,
        (d.r_lower_leg_angle - d.r_leg_angle) / math_pi,
        (d.l_lower_leg_angle - d.l_leg_angle) / math_pi,
        d.body_angle / (2 * math_pi),
        d.r_arm_angle / (2 * math_pi),
        d.l_arm_angle / (2 * math_pi),
        d.r_leg_angle / (2 * math_pi),
        d.l_leg_angle / (2 * math_pi),
        d.r_lower_leg_angle / (2 * math_pi),
        d.l_lower_leg_angle / (2 * math_pi),
        (get_angular_velocities d).getD 0 0,
        (get_angular_velocities d).getD 1 0,
        (get_angular_velocities d).getD 2 0,
        (get_angular_velocities d).getD 3 0,
        (get_angular_velocities d).getD 4 0,
        (get_angular_velocities d).getD 5 0,
        (if d.motor_forces.length < 6 then List.replicate 6 0 else d.motor_forces).getD 0 0,
        (if d.motor_forces.length < 6 then List.replicate 6 0 else d.motor_forces).getD 1 0,
        (if d.motor_forces.length < 6 then List.replicate 6 0 else d.motor_forces).getD 2 0,
        (if d.motor_forces.length < 6 then List.replicate 6 0 else d.motor_forces).getD 3 0,
        (if d.motor_forces.length < 6 then List.replicate 6 0 else d.motor_forces).getD 4 0,
        (if d.motor_forces.length < 6 then List.replicate 6 0 else d.motor_forces).getD 5 0,
        (if d.r_foot_contact then 1 else 0),
        (if d.l_foot_contact then 1 else 0),
        (if d.r_hand_contact then 1 else 0),
        (if d.l_hand_contact then 1 else 0) ] := by
  unfold get_sensor_data
  rw [h]
  rfl

theorem get_sensor_data_hit (d : Dummy) (h : d.is_hit = true) :
    get_sensor_data d = List.replicate 29 0 := by
  unfold get_sensor_data
  rw [h]
  rfl

theorem get_sensor_data_length (d : Dummy) : (get_sensor_data d).length = 29 := by
  by_cases h : d.is_hit
  · rw [get_sensor_data_hit d h]; rfl
  · rw [get_sensor_data_not_hit d (Bool.not_eq_true _ ▸ h)]; rfl

/-- Claim C5 (confirmed): mark_as_hit is idempotent — the first call on a
non-hit dummy sets is_hit, captures the trunk position into final_x and
returns that position; any call on an already-hit dummy returns nothing
and changes no state, so a second call is a no-op and final_x never
changes after the first call. -/
theorem claim_C5 (d : Dummy) :
    (d.is_hit = false →
        (mark_as_hit d).2 = some d.pos
        ∧ (mark_as_hit d).1.is_hit = true
        ∧ (mark_as_hit d).1.final_x = some d.pos.1)
    ∧ (d.is_hit = true → mark_as_hit d = (d, none))
    ∧ (mark_as_hit (mark_as_hit d).1).1 = (mark_as_hit d).1
    ∧ (mark_as_hit (mark_as_hit d).1).2 = none
    ∧ (mark_as_hit (mark_as_hit d).1).1.final_x = (mark_as_hit d).1.final_x := by
  by_cases h : d.is_hit <;> simp [mark_as_hit, h]

/-- Witness for C5: a freshly created dummy at the default start position,
marked twice. -/
theorem claim_C5_witness :
    (mark_as_hit (mkDummy DEFAULT_DUMMY_START_POS)).2 = some (250, 150)
    ∧ (mark_as_hit (mkDummy DEFAULT_DUMMY_START_POS)).1.final_x = some 250
    ∧ (mark_as_hit (mark_as_hit (mkDummy DEFAULT_DUMMY_START_POS)).1).2 = none := by
  have h := claim_C5 (mkDummy DEFAULT_DUMMY_START_POS)
  exact ⟨(h.1 rfl).1, (h.1 rfl).2.2, h.2.2.2.1⟩

/-- Claim C3 (confirmed): on a non-hit dummy with its six motors,
set_motor_rates with a wrongly sized list emits the warning diagnostic and
mutates nothing, while a correctly sized list of 6 rates updates exactly
the six motors' target rates, each scaled by MOTOR_RATE, leaving the
max-force caps and every other field unchanged. -/
theorem claim_C3 (d : Dummy) (rates : List ℚ)
    (h1 : d.is_hit = false) (h2 : d.motors.length = 6) :
    (rates.length ≠ 6 → set_motor_rates d rates = (d, true))
    ∧ (rates.length = 6 →
        (set_motor_rates d rates).2 = false
        ∧ (set_motor_rates d rates).1.motors.length = 6
        ∧ (set_motor_rates d rates).1.motors.map (fun m => m.rate)
            = rates.map (fun x => x * MOTOR_RATE)
        ∧ (set_motor_rates d rates).1.motors.map (fun m => m.max_force)
            = d.motors.map (fun m => m.max_force)
        ∧ (set_motor_rates d rates).1
            = { d with motors := (set_motor_rates d rates).1.motors }) := by
  have hne : d.motors.isEmpty = false := isEmpty_false_of_length d.motors 5 (by omega)
  have hguard : (d.is_hit || d.motors.isEmpty) = false := by rw [h1, hne]; rfl
  constructor
  · intro hl
    unfold set_motor_rates
    rw [hguard]
    simp only [Bool.false_eq_true, if_false]
    rw [if_pos (by omega : rates.length ≠ d.motors.length)]
  · intro hl
    have hlen : d.motors.length = rates.length := by omega
    have hred : set_motor_rates d rates =
        ({ d with motors := List.zipWith (fun m r => { m with rate := r * MOTOR_RATE }) d.motors rates },
         false) := by
      unfold set_motor_rates
      rw [hguard]
      simp only [Bool.false_eq_true, if_false]
      rw [if_neg (by omega : ¬ rates.length ≠ d.motors.length)]
    refine ⟨by rw [hred], ?_, ?_, ?_, ?_⟩
    · rw [hred]; simp [List.length_zipWith, h2, hl]
    · rw [hred]; exact zipWith_rate_map d.motors rates hlen
    · rw [hred]; exact zipWith_maxforce_map d.motors rates hlen
    · rw [hred]

/-- Witness for C3: a fresh dummy; a 2-element list is rejected without
mutation, a 6-element list sets the six target rates scaled by
MOTOR_RATE. -/
theorem claim_C3_witness :
    ((mkDummy DEFAULT_DUMMY_START_POS).is_hit = false)
    ∧ ((mkDummy DEFAULT_DUMMY_START_POS).motors.length = 6)
    ∧ (set_motor_rates (mkDummy DEFAULT_DUMMY_START_POS) [1, 2]
        = (mkDummy DEFAULT_DUMMY_START_POS, true))
    ∧ ((set_motor_rates (mkDummy DEFAULT_DUMMY_START_POS) [1, -1, 1/2, -1/2, 0, 1]).1.motors.map
          (fun m => m.rate) = [10, -10, 5, -5, 0, 10]) := by
  have h := claim_C3 (mkDummy DEFAULT_DUMMY_START_POS) [1, 2] rfl rfl
  have h6 := claim_C3 (mkDummy DEFAULT_DUMMY_START_POS) [1, -1, 1/2, -1/2, 0, 1] rfl rfl
  refine ⟨rfl, rfl, h.1 (by decide), ?_⟩
  rw [(h6.2 rfl).2.2.1]
  with_unfolding_all decide

/-- Claim C8 (confirmed): every kill event of the shared world spawns a
burst of exactly NUM_DEBRIS_PARTS = 15 debris particles at the agent's
death position (the position returned by mark_as_hit), and the per-tick
cleanup removes a debris particle exactly when its vertical coordinate is
below DEBRIS_CLEANUP_Y — all such particles are removed and none is
removed before crossing the threshold. -/
theorem claim_C8 :
    (∀ rand center db, (createExplosion rand center db).length = db.length + NUM_DEBRIS_PARTS)
    ∧ (∀ rand center db,
        ((createExplosion rand center db).drop db.length).map (fun p => p.pos)
          = List.replicate NUM_DEBRIS_PARTS center)
    ∧ (∀ (db : List Debris) (p : Debris),
        p ∈ cleanup_debris db ↔ (p ∈ db ∧ ¬ p.pos.2 < DEBRIS_CLEANUP_Y))
    ∧ (∀ rand d db, (laser_hit_dummy rand d db).2.length
          = db.length + (if d.is_hit then 0 else NUM_DEBRIS_PARTS))
    ∧ (∀ rand d db, ((laser_hit_dummy rand d db).2.drop db.length).map (fun p => p.pos)
          = (if d.is_hit then ([] : List (ℚ × ℚ)) else List.replicate NUM_DEBRIS_PARTS d.pos))
    ∧ (∀ rand d db, (ground_dummy_collision rand d BodyPart.head db).2.length
          = db.length + (if d.is_hit then 0 else NUM_DEBRIS_PARTS)) := by
  have hlen : ∀ (rand : Nat → (ℚ × ℚ) × ℚ) (center : ℚ × ℚ) (db : List Debris),
      (createExplosion rand center db).length = db.length + NUM_DEBRIS_PARTS := by
    intro rand center db
    simp [createExplosion]
  have hpos : ∀ (rand : Nat → (ℚ × ℚ) × ℚ) (center : ℚ × ℚ) (db : List Debris),
      ((createExplosion rand center db).drop db.length).map (fun p => p.pos)
        = List.replicate NUM_DEBRIS_PARTS center := by
    intro rand center db
    unfold createExplosion
    rw [drop_append_length, List.map_map]
    show (List.range NUM_DEBRIS_PARTS).map (fun _ => center) = _
    rw [list_map_const, List.length_range]
  refine ⟨hlen, hpos, ?_, ?_, ?_, ?_⟩
  · intro db p
    simp [cleanup_debris, List.mem_filter]
  · intro rand d db
    by_cases h : d.is_hit
    · simp [laser_hit_dummy, mark_as_hit, h]
    · simp only [laser_hit_dummy, mark_as_hit, h, Bool.not_false, if_true, if_neg]
      simp [h, hlen]
  · intro rand d db
    by_cases h : d.is_hit
    · simp [laser_hit_dummy, mark_as_hit, h]
    · simp only [laser_hit_dummy, mark_as_hit, h, Bool.not_false, if_true, if_neg]
      simp [h, hpos]
  · intro rand d db
    by_cases h : d.is_hit
    · simp [ground_dummy_collision, mark_as_hit, h]
    · simp only [ground_dummy_collision, mark_as_hit, h, Bool.not_false, if_true, if_neg]
      simp [h, hlen]

/-- Claim C9 (confirmed): every body part of every dummy receives the
collision filter ShapeFilter(group=1), and pymunk rejects any collision
between two shapes sharing the non-zero group 1, so no two agent shapes —
of the same dummy or of two different dummies sharing the world — ever
collide with each other. -/
theorem claim_C9 :
    ∀ (o1 o2 ct1 ct2 : Nat) (s1 s2 : PartShape),
      s1 ∈ dummy_part_shapes o1 ct1 → s2 ∈ dummy_part_shapes o2 ct2 →
      s1.filter.group = 1 ∧ s2.filter.group = 1
      ∧ shapeFilterReject s1.filter s2.filter = true := by
  intro o1 o2 ct1 ct2 s1 s2 h1 h2
  unfold dummy_part_shapes at h1 h2
  rcases List.mem_map.mp h1 with ⟨p1, _, rfl⟩
  rcases List.mem_map.mp h2 with ⟨p2, _, rfl⟩
  exact ⟨rfl, rfl, rfl⟩

/-- Witness for C9: the head shape of dummy 0 and the right-arm shape of
dummy 1 are both created by _create_part and their collision is
rejected. -/
theorem claim_C9_witness :
    (create_part_shape 0 BodyPart.head 1 ∈ dummy_part_shapes 0 1)
    ∧ (create_part_shape 1 BodyPart.r_arm 1 ∈ dummy_part_shapes 1 1)
    ∧ shapeFilterReject (create_part_shape 0 BodyPart.head 1).filter
        (create_part_shape 1 BodyPart.r_arm 1).filter = true := by
  have m1 : create_part_shape 0 BodyPart.head 1 ∈ dummy_part_shapes 0 1 := by
    unfold dummy_part_shapes
    exact List.mem_map_of_mem _ (by simp)
  have m2 : create_part_shape 1 BodyPart.r_arm 1 ∈ dummy_part_shapes 1 1 := by
    unfold dummy_part_shapes
    exact List.mem_map_of_mem _ (by simp)
  exact ⟨m1, m2, (claim_C9 0 1 1 1 _ _ m1 m2).2.2⟩

/-- Claim C4 (confirmed): get_sensor_data always returns exactly 29
values; once is_hit it returns 29 zeros; while not hit, the first 6 values
are the relative joint angles divided by pi, the next 7 the absolute
angles divided by 2 pi, the next 6 the angular velocities clamped to
[-1, 1], the next 6 the motor-load fractions which lie in [0, 1] whenever
the stored motor-load fractions do (they are all zero in every reachable
state), and the last 4 the contact flags taking only the values 0 and
1. -/
theorem claim_C4 (d : Dummy) (hm : ∀ x ∈ d.motor_forces, 0 ≤ x ∧ x ≤ 1) :
    (get_sensor_data d).length = 29
    ∧ (d.is_hit = true → get_sensor_data d = List.replicate 29 0)
    ∧ (d.is_hit = false →
        (get_sensor_data d).take 6 =
          [ (d.r_arm_angle - d.body_angle) / math_pi,
            (d.l_arm_angle - d.body_angle) / math_pi,
            (d.r_leg_angle - d.body_angle) / math_pi,
            (d.l_leg_angle - d.body_angle) / math_pi,
            (d.r_lower_leg_angle - d.r_leg_angle) / math_pi,
            (d.l_lower_leg_angle - d.l_leg_angle) / math_pi ]
        ∧ ((get_sensor_data d).drop 6).take 7 =
          [ d.body_angle / (2 * math_pi),
            d.r_arm_angle / (2 * math_pi),
            d.l_arm_angle / (2 * math_pi),
            d.r_leg_angle / (2 * math_pi),
            d.l_leg_angle / (2 * math_pi),
            d.r_lower_leg_angle / (2 * math_pi),
            d.l_lower_leg_angle / (2 * math_pi) ]
        ∧ ((get_sensor_data d).drop 13).take 6 = get_angular_velocities d
        ∧ (∀ x ∈ ((get_sensor_data d).drop 13).take 6, -1 ≤ x ∧ x ≤ 1)
        ∧ (∀ x ∈ ((get_sensor_data d).drop 19).take 6, 0 ≤ x ∧ x ≤ 1)
        ∧ (∀ x ∈ ((get_sensor_data d).drop 25).take 4, x = 0 ∨ x = 1)) := by
  refine ⟨get_sensor_data_length d, get_sensor_data_hit d, fun h => ?_⟩
  rw [get_sensor_data_not_hit d h]
  refine ⟨rfl, rfl, ?_, ?_, ?_, ?_⟩
  · rw [get_angular_velocities_not_hit d h]
    rfl
  · intro x hx
    replace hx : x ∈
        [ (get_angular_velocities d).getD 0 0, (get_angular_velocities d).getD 1 0,
          (get_angular_velocities d).getD 2 0, (get_angular_velocities d).getD 3 0,
          (get_angular_velocities d).getD 4 0, (get_angular_velocities d).getD 5 0 ] := hx
    rw [get_angular_velocities_not_hit d h] at hx
    replace hx : x ∈
        [ clamp_unit ((d.r_arm_angvel - d.body_angvel) / (MOTOR_RATE * (3/2))),
          clamp_unit ((d.l_arm_angvel - d.body_angvel) / (MOTOR_RATE * (3/2))),
          clamp_unit ((d.r_leg_angvel - d.body_angvel) / (MOTOR_RATE * (3/2))),
          clamp_unit ((d.l_leg_angvel - d.body_angvel) / (MOTOR_RATE * (3/2))),
          clamp_unit ((d.r_lower_leg_angvel - d.r_leg_angvel) / (MOTOR_RATE * (3/2))),
          clamp_unit ((d.l_lower_leg_angvel - d.l_leg_angvel) / (MOTOR_RATE * (3/2))) ] := hx
    simp only [List.mem_cons, List.not_mem_nil, or_false] at hx
    rcases hx with rfl | rfl | rfl | rfl | rfl | rfl <;> exact clamp_unit_bounds _
  · intro x hx
    replace hx : x ∈
        [ (if d.motor_forces.length < 6 then List.replicate 6 0 else d.motor_forces).getD 0 0,
          (if d.motor_forces.length < 6 then List.replicate 6 0 else d.motor_forces).getD 1 0,
          (if d.motor_forces.length < 6 then List.replicate 6 0 else d.motor_forces).getD 2 0,
          (if d.motor_forces.length < 6 then List.replicate 6 0 else d.motor_forces).getD 3 0,
          (if d.motor_forces.length < 6 then List.replicate 6 0 else d.motor_forces).getD 4 0,
          (if d.motor_forces.length < 6 then List.replicate 6 0 else d.motor_forces).getD 5 0 ] := hx
    by_cases h6 : d.motor_forces.length < 6
    · rw [if_pos h6] at hx
      replace hx : x ∈ [(0 : ℚ), 0, 0, 0, 0, 0] := hx
      simp only [List.mem_cons, List.not_mem_nil, or_false] at hx
      rcases hx with rfl | rfl | rfl | rfl | rfl | rfl <;> norm_num
    · rw [if_neg h6] at hx
      simp only [List.mem_cons, List.not_mem_nil, or_false] at hx
      rcases hx with rfl | rfl | rfl | rfl | rfl | rfl <;>
        exact hm _ (getD_mem_of_lt d.motor_forces _ (by omega))
  · intro x hx
    replace hx : x ∈
        [ (if d.r_foot_contact then (1 : ℚ) else 0),
          (if d.l_foot_contact then (1 : ℚ) else 0),
          (if d.r_hand_contact then (1 : ℚ) else 0),
          (if d.l_hand_contact then (1 : ℚ) else 0) ] := hx
    simp only [List.mem_cons, List.not_mem_nil, or_false] at hx
    rcases hx with rfl | rfl | rfl | rfl
    · cases hf : d.r_foot_contact <;> simp [hf]
    · cases hf : d.l_foot_contact <;> simp [hf]
    · cases hf : d.r_hand_contact <;> simp [hf]
    · cases hf : d.l_hand_contact <;> simp [hf]

/-- Witness for C4: a fresh dummy at the default start position (its
stored motor-load fractions are [0, 0, 0, 0], all inside [0, 1]). -/
theorem claim_C4_witness :
    (∀ x ∈ (mkDummy DEFAULT_DUMMY_START_POS).motor_forces, 0 ≤ x ∧ x ≤ 1)
    ∧ (get_sensor_data (mkDummy DEFAULT_DUMMY_START_POS)).length = 29 := by
  refine ⟨by with_unfolding_all decide, ?_⟩
  exact (claim_C4 (mkDummy DEFAULT_DUMMY_START_POS) (by with_unfolding_all decide)).1

/-- Claim C10 (confirmed): in the isolated path the locally registered
ground handler kills only on head contact and no handler touches the
contact flags; every operation of the isolated per-agent loop preserves
clear contact flags, so for an agent evaluated in isolation the four
contact-flag sensors stay 0.0 for the entire run — unlike the shared
path, whose ground begin/separate handlers set and clear them. -/
theorem claim_C10 :
    (∀ d p, p ≠ BodyPart.head → localGroundHandler d p = d)
    ∧ (∀ d, localGroundHandler d BodyPart.head = (mark_as_hit d).1)
    ∧ (∀ env k d, contact_flags_clear d → contact_flags_clear (isoStep env k d))
    ∧ (∀ d rs, contact_flags_clear d → contact_flags_clear (set_motor_rates d rs).1)
    ∧ (∀ env net fuel d frames dist stab, contact_flags_clear d →
        isoFlagsOk (simDummyLoop env net fuel d frames dist stab))
    ∧ (∀ env net, isoResFlagsOk (simulate_dummy env net))
    ∧ (∀ d, contact_flags_clear d → ((get_sensor_data d).drop 25).take 4 = [0, 0, 0, 0])
    ∧ (∀ rand d db,
        (ground_dummy_collision rand d BodyPart.r_lower_leg db).1.r_foot_contact = true
        ∧ (ground_dummy_collision rand d BodyPart.l_lower_leg db).1.l_foot_contact = true
        ∧ (ground_dummy_collision rand d BodyPart.r_arm db).1.r_hand_contact = true
        ∧ (ground_dummy_collision rand d BodyPart.l_arm db).1.l_hand_contact = true)
    ∧ (∀ d,
        (ground_dummy_separate d BodyPart.r_lower_leg).r_foot_contact = false
        ∧ (ground_dummy_separate d BodyPart.l_lower_leg).l_foot_contact = false
        ∧ (ground_dummy_separate d BodyPart.r_arm).r_hand_contact = false
        ∧ (ground_dummy_separate d BodyPart.l_arm).l_hand_contact = false) := by
  refine ⟨?_, ?_, isoStep_flags, set_motor_rates_flags, simDummyLoop_flags, ?_, ?_, ?_, ?_⟩
  · intro d p hp
    unfold localGroundHandler
    rw [if_neg hp]
  · intro d
    unfold localGroundHandler
    rw [if_pos rfl]
  · intro env net
    unfold simulate_dummy
    have h := simDummyLoop_flags env net (maxFrames + 1) (isoInitialDummy env) 0 0 0
      (by exact ⟨rfl, rfl, rfl, rfl⟩)
    cases heq : simDummyLoop env net (maxFrames + 1) (isoInitialDummy env) 0 0 0 with
    | error e => exact trivial
    | ok y =>
        rw [heq] at h
        exact h
  · intro d hd
    by_cases h : d.is_hit
    · rw [get_sensor_data_hit d h]
      rfl
    · rw [get_sensor_data_not_hit d (Bool.not_eq_true _ ▸ h)]
      replace : ((get_sensor_data d).drop 25).take 4 = [0, 0, 0, 0] := by
        rw [get_sensor_data_not_hit d (Bool.not_eq_true _ ▸ h)]
        rw [hd.1, hd.2.1, hd.2.2.1, hd.2.2.2]
        rfl
      rw [hd.1, hd.2.1, hd.2.2.1, hd.2.2.2]
      rfl
  · intro rand d db
    exact ⟨rfl, rfl, rfl, rfl⟩
  · intro d
    exact ⟨rfl, rfl, rfl, rfl⟩

/-- Witness for C10: a full isolated run from a fresh dummy (flags clear)
under the inert oracle ends with all four contact-flag sensors still
clear, while one shared-path ground begin event on the right lower leg
sets the flag. -/
theorem claim_C10_witness :
    (BodyPart.r_arm ≠ BodyPart.head)
    ∧ localGroundHandler (mkDummy DEFAULT_DUMMY_START_POS) BodyPart.r_arm
        = mkDummy DEFAULT_DUMMY_START_POS
    ∧ contact_flags_clear (mkDummy DEFAULT_DUMMY_START_POS)
    ∧ isoFlagsOk (simDummyLoop envIsoInert netZeros 2 (mkDummy DEFAULT_DUMMY_START_POS) 0 0 0)
    ∧ ((get_sensor_data (mkDummy DEFAULT_DUMMY_START_POS)).drop 25).take 4 = [0, 0, 0, 0] := by
  have h := claim_C10
  refine ⟨by decide, h.1 _ _ (by decide), ⟨rfl, rfl, rfl, rfl⟩, ?_, ?_⟩
  · exact h.2.2.2.2.1 envIsoInert netZeros 2 _ 0 0 0 ⟨rfl, rfl, rfl, rfl⟩
  · exact h.2.2.2.2.2.2.1 _ ⟨rfl, rfl, rfl, rfl⟩

/-- Counterexample to C7 as stated: under a physics oracle that parks the
dummy at x = -200, the isolated loop exits after a single frame with the
agent still alive and far from the 2000-tick ceiling — the early break on
the laser having passed the dummy by more than 100 is a third exit
condition beside the two the claim allows. -/
theorem claim_C7_counterexample :
    isoSummary (simulate_dummy envLaserPasses netZeros) = some (false, 1)
    ∧ (1 : Nat) ≠ maxFrames ∧ (1 : Nat) < maxFrames := by
  refine ⟨by with_unfolding_all decide, by decide, by decide⟩

/-- Claim C7 (corrected): the isolated per-agent loop always terminates
within the safety ceiling of maxFrames = 2000 ticks, and a run that does
not propagate a network exception ends only because the agent became
terminal, or the ceiling was reached, or — the condition the claim
omits — the laser has passed the dummy's x position by more than 100. -/
theorem claim_C7_amended :
    ∀ (env : IsoEnv) (net : List ℚ → Except Unit (List ℚ)),
      isoExitOk (simulate_dummy env net) := by
  intro env net
  have h := simDummyLoop_exit env net (maxFrames + 1) (isoInitialDummy env) 0 0 0
    (by omega) (by omega)
  unfold simulate_dummy
  cases heq : simDummyLoop env net (maxFrames + 1) (isoInitialDummy env) 0 0 0 with
  | error e => exact trivial
  | ok y =>
      rw [heq] at h
      exact h

/-- Counterexample to C2 as stated: in the isolated evaluation path there
is no handler around the network activation, so a network that raises on
its first activation makes the whole per-genome evaluation propagate the
exception instead of recovering it locally. -/
theorem claim_C2_counterexample :
    simulate_dummy envIsoInert (fun _ => Except.error ()) = Except.error () := rfl

/-- Claim C2 (corrected): in the shared visual path an exception from the
network activation is recovered locally — the agent is marked as hit, a
burst of 15 debris is spawned at the returned position, the agent is
removed from the space, and the loop still returns one result per genome
— but in the isolated path an activation exception is not caught and
propagates out of the per-genome evaluation. -/
theorem claim_C2_amended :
    (∀ env t r db, r.dummy.is_hit = false →
        env.net r.id (get_sensor_data r.dummy) = Except.error () →
        (sweepAgent env t r db).1.dummy.is_hit = true
        ∧ (sweepAgent env t r db).1.dummy.in_space = false
        ∧ (sweepAgent env t r db).1.dummy.motors = []
        ∧ (sweepAgent env t r db).2.1.length = db.length + NUM_DEBRIS_PARTS
        ∧ (sweepAgent env t r db).1.frames = r.frames + 1
        ∧ (sweepAgent env t r db).1.id = r.id
        ∧ (sweepAgent env t r db).2.2 = 1)
    ∧ (∀ env genomes fuel, (run_visual_simulation env genomes fuel).map (fun g => g.id) = genomes)
    ∧ (∀ env net, net (get_sensor_data (isoInitialDummy env)) = Except.error () →
        simulate_dummy env net = Except.error ()) := by
  refine ⟨?_, run_visual_ids, ?_⟩
  · intro env t r db h1 h2
    refine ⟨?_, ?_, ?_, ?_, ?_, ?_, ?_⟩ <;>
      simp [sweepAgent, h1, h2, mark_as_hit, remove_from_space, createExplosion]
  · intro env net h
    unfold simulate_dummy
    have hred : simDummyLoop env net (maxFrames + 1) (isoInitialDummy env) 0 0 0
        = Except.error () := by
      unfold simDummyLoop
      have hguard : (!(isoInitialDummy env).is_hit && decide (0 < maxFrames)) = true := rfl
      rw [hguard]
      simp only [if_true, h]
    rw [hred]

/-- Witness for C2: a genome whose network raises on every activation is
terminated locally in the visual sweep with a 15-particle explosion, and
the same raising network makes the isolated evaluation propagate the
error. -/
theorem claim_C2_witness :
    (recNetRaises.dummy.is_hit = false)
    ∧ (envNetRaises.net recNetRaises.id (get_sensor_data recNetRaises.dummy) = Except.error ())
    ∧ (sweepAgent envNetRaises 0 recNetRaises []).1.dummy.is_hit = true
    ∧ (sweepAgent envNetRaises 0 recNetRaises []).1.dummy.in_space = false
    ∧ (sweepAgent envNetRaises 0 recNetRaises []).2.1.length = NUM_DEBRIS_PARTS
    ∧ simulate_dummy envIsoInert (fun _ => Except.error ()) = Except.error () := by
  have h := claim_C2_amended
  have hs := h.1 envNetRaises 0 recNetRaises [] rfl rfl
  exact ⟨rfl, rfl, hs.1, hs.2.1, hs.2.2.2.1, h.2.2 envIsoInert (fun _ => Except.error ()) rfl⟩

/-- Counterexample to C1 as stated: an agent killed by the physics step of
the very first tick of the visual path receives fitness 1, not 0 — the
frame counter is incremented at the agent's controller update, before the
step in which it is hit. -/
theorem claim_C1_counterexample :
    (run_visual_simulation envFirstTickKill [0] 4).map (fun g => (g.id, g.fitness, g.frames))
      = [(0, (1 : ℚ), 1)]
    ∧ ((runVisLoop envFirstTickKill 4 0 (initRecs envFirstTickKill [0]) [] 1).1.map
        (fun r => r.dummy.is_hit)) = [true]
    ∧ (1 : ℚ) ≠ 0 := by
  refine ⟨by with_unfolding_all decide, by with_unfolding_all decide, by norm_num⟩

/-- Claim C1 (corrected): the fitness written back for every genome equals
the cast of its frame counter, and the frame counter advances by exactly
one on every tick at whose controller update the agent was non-terminal
and never otherwise — so an agent hit during the very first tick's physics
step receives fitness 1, and fitness 0 occurs only when the agent received
no controller update at all. -/
theorem claim_C1_amended :
    (∀ env t r db, (sweepAgent env t r db).1.frames
        = r.frames + (if r.dummy.is_hit then 0 else 1))
    ∧ (∀ env t r db, (stepAgent env t r db).1.frames = r.frames)
    ∧ (∀ env genomes fuel, (run_visual_simulation env genomes fuel).map (fun g => g.fitness)
        = (run_visual_simulation env genomes fuel).map (fun g => (g.frames : ℚ)))
    ∧ (∀ env net, fitnessFramesOk (simulate_dummy env net)) := by
  refine ⟨sweepAgent_frames, stepAgent_frames, ?_, ?_⟩
  · intro env genomes fuel
    apply List.map_congr_left
    intro g hg
    exact run_visual_fitness env genomes fuel g hg
  · intro env net
    unfold simulate_dummy
    cases heq : simDummyLoop env net (maxFrames + 1) (isoInitialDummy env) 0 0 0 with
    | error e => exact trivial
    | ok y => exact rfl

/-- Counterexample to C6 as stated: closing the display after one tick of
the visual path leaves the still-alive agent with fitness 1 — the frames
it accumulated before the close — not the initialised value 0. -/
theorem claim_C6_counterexample :
    (run_visual_simulation envEarlyClose [0] 4).map (fun g => (g.fitness, g.frames))
      = [((1 : ℚ), 1)]
    ∧ ((runVisLoop envEarlyClose 4 0 (initRecs envEarlyClose [0]) [] 1).1.map
        (fun r => r.dummy.is_hit)) = [false]
    ∧ (1 : ℚ) ≠ 0 := by
  refine ⟨by with_unfolding_all decide, by with_unfolding_all decide, by norm_num⟩

/-- Claim C6 (corrected): when the display is closed mid-generation the
visual loop exits immediately at the top of the next tick without mutating
any further state and control returns normally, every genome still
receives a result row, and each genome's fitness equals the frames it had
accumulated by the close — which is 0 only when the display closed before
the first tick. -/
theorem claim_C6_amended :
    (∀ env fuel t recs db act, 0 < act → env.vizRunning t = false →
        runVisLoop env (fuel + 1) t recs db act = (recs, db))
    ∧ (∀ env genomes fuel, (run_visual_simulation env genomes fuel).map (fun g => g.id) = genomes)
    ∧ (∀ env genomes fuel, (run_visual_simulation env genomes fuel).map (fun g => g.fitness)
        = (run_visual_simulation env genomes fuel).map (fun g => (g.frames : ℚ))) := by
  refine ⟨?_, run_visual_ids, ?_⟩
  · intro env fuel t recs db act hact hviz
    unfold runVisLoop
    rw [if_pos hact, if_neg (by rw [hviz]; exact Bool.false_ne_true)]
  · intro env genomes fuel
    apply List.map_congr_left
    intro g hg
    exact run_visual_fitness env genomes fuel g hg

/-- Witness for C6: with the display closed from tick 1 on, the loop entered
at tick 1 with one active agent returns its state unchanged. -/
theorem claim_C6_witness :
    (0 < 1)
    ∧ (envEarlyClose.vizRunning 1 = false)
    ∧ runVisLoop envEarlyClose 3 1 (initRecs envEarlyClose [0]) [] 1
        = (initRecs envEarlyClose [0], []) := by
  refine ⟨by decide, by decide, ?_⟩
  exact claim_C6_amended.1 envEarlyClose 2 1 (initRecs envEarlyClose [0]) [] 1
    (by decide) (by decide)
